import Mathlib

/-!
Verification of the LocateApp event-filtering front end.

The development shallowly embeds the logic of `src/SportsScreen.js`,
`src/MusicScreen.js` and `src/App.js`:

* JavaScript `Date` values are modelled as milliseconds since the epoch of
  the proleptic Gregorian calendar (day 0 = 0000-01-01), in a single fixed
  time zone, carried as `Int`.
* `Date` construction with out-of-range month/day arguments is modelled by
  `mkMillis`, which normalizes the month index and lets the day index run
  linearly past the end of the month, exactly as JavaScript `new Date(y,m,d)`
  and `setDate` do.
* Absent or unparseable event dates (`new Date(undefined)` giving `NaN`,
  whose comparisons are all false) are modelled as `Option Int` with `none`
  never matching a time window.
* JavaScript string truthiness (`s && ...` being falsy for the empty string)
  is modelled explicitly wherever the source relies on it.
-/

/-- Gregorian leap-year rule, as implemented by JavaScript `Date`. -/
def isLeap (y : Nat) : Bool :=
  decide (y % 4 = 0 ∧ (¬ y % 100 = 0 ∨ y % 400 = 0))

/-- Number of days of year `y`. -/
def daysInYear (y : Nat) : Nat :=
  if isLeap y then 366 else 365

/-- Number of days in the years `0, 1, ..., y-1` of the proleptic Gregorian
calendar (closed form counting the leap years below `y`). -/
def daysBeforeYear (y : Nat) : Nat :=
  365 * y + (y + 3) / 4 + (y + 399) / 400 - (y + 99) / 100

/-- Number of days of month `m` (1-indexed, January = 1) of year `y`;
0 for an out-of-range month index. -/
def daysInMonth (y : Nat) (m : Nat) : Nat :=
  if m = 2 then (if isLeap y then 29 else 28)
  else if m = 4 ∨ m = 6 ∨ m = 9 ∨ m = 11 then 30
  else if 1 ≤ m ∧ m ≤ 12 then 31
  else 0

/-- Number of days of year `y` that lie before month `m` (1-indexed). -/
def daysBeforeMonth (y : Nat) : Nat → Nat
  | 0 => 0
  | m + 1 => daysBeforeMonth y m + daysInMonth y m

/-- Day number of the civil date `(y, m, d)`: days since 0000-01-01.
The day component is an `Int` and may lie outside `1 .. daysInMonth y m`;
it then denotes the corresponding day of a neighbouring month, exactly as
JavaScript `new Date(y, m, d)` / `setDate(d)` normalize it. -/
def dayNumber (y m : Nat) (d : Int) : Int :=
  ((daysBeforeYear y + daysBeforeMonth y m : Nat) : Int) + (d - 1)

/-- Milliseconds per day. -/
def msPerDay : Int := 86400000

/-- Timestamp (ms since day 0) of `new Date(y, mIdx, d)` plus `ms`
milliseconds into the day.  `mIdx` is the 0-based JavaScript month index and
may exceed 11; it is normalized into the following years, as JavaScript
does. -/
def mkMillis (y : Nat) (mIdx : Nat) (d : Int) (ms : Int) : Int :=
  dayNumber (y + mIdx / 12) (mIdx % 12 + 1) d * msPerDay + ms

/-- JavaScript `getDay()` of a timestamp: day of week, 0 = Sunday .. 6 =
Saturday.  Day number 0 (0000-01-01) is a Saturday, hence the offset 6. -/
def jsGetDay (t : Int) : Int :=
  (t.fdiv msPerDay + 6) % 7

/-- A wall-clock instant, as the civil fields JavaScript `Date` accessors
expose (`getFullYear`, `getMonth`+1, `getDate`, `getHours`, ...). -/
structure Now where
  year : Nat
  month : Nat
  day : Nat
  hour : Nat
  minute : Nat
  sec : Nat
  ms : Nat

/-- The civil fields denote an actual instant. -/
def Now.Valid (t : Now) : Prop :=
  1 ≤ t.month ∧ t.month ≤ 12 ∧ 1 ≤ t.day ∧ t.day ≤ daysInMonth t.year t.month ∧
    t.hour ≤ 23 ∧ t.minute ≤ 59 ∧ t.sec ≤ 59 ∧ t.ms ≤ 999

instance (t : Now) : Decidable t.Valid := by
  unfold Now.Valid
  infer_instance

/-- Milliseconds into the day of an instant. -/
def todMillis (t : Now) : Int :=
  ((t.hour * 60 + t.minute) * 60 + t.sec) * 1000 + t.ms

/-- Timestamp of an instant. -/
def Now.millis (t : Now) : Int :=
  mkMillis t.year (t.month - 1) t.day (todMillis t)

/-- Embedding of `new Date(now).setHours(0, 0, 0, 0)`
(SportsScreen.js line 42, MusicScreen.js line 44). -/
def startOfDay (t : Now) : Int :=
  mkMillis t.year (t.month - 1) t.day 0

/-- Embedding of `new Date(now).setHours(23, 59, 59, 999)`
(SportsScreen.js line 43, MusicScreen.js line 45). -/
def endOfDay (t : Now) : Int :=
  mkMillis t.year (t.month - 1) t.day 86399999

/-- Embedding of
`new Date(startOfDay).setDate(getDate() - getDay() + 7)`
(SportsScreen.js line 44, MusicScreen.js line 46): same month, day index
`day - dayOfWeek + 7`, time kept at midnight. -/
def endOfWeek (t : Now) : Int :=
  mkMillis t.year (t.month - 1) ((t.day : Int) - jsGetDay (startOfDay t) + 7) 0

/-- Embedding of
`new Date(y, getMonth() + 1, 0).setHours(23, 59, 59, 999)`
(SportsScreen.js line 45, MusicScreen.js line 47): day 0 of the following
month, i.e. the last day of the current month. -/
def endOfMonth (t : Now) : Int :=
  mkMillis t.year t.month 0 86399999

/-- Embedding of
`new Date(y, getMonth() + 2, 0).setHours(23, 59, 59, 999)`
(SportsScreen.js line 46, MusicScreen.js line 48). -/
def endOfNextMonth (t : Now) : Int :=
  mkMillis t.year (t.month + 1) 0 86399999

/-- The normalized event shape the app works with (§3 of the spec;
`api.fetchTicketmasterEvents` in App.js lines 39-48 and the mock events in
lines 120-124).  `date` holds the parsed timestamp of the ISO date string;
`none` stands for an absent field or an unparseable string (JavaScript
`new Date(...)` yielding `NaN`). -/
structure Event where
  id : String
  name : String
  category : String
  subcategory : Option String := none
  date : Option Int := none
  venueName : Option String := none
  imageUrl : String := ""
  address : String := ""
deriving Repr, DecidableEq

/-- Embedding of JavaScript `toLowerCase()` (ASCII case folding). -/
def lowerStr (s : String) : String :=
  ⟨s.data.map Char.toLower⟩

/-- Whether `pat` occurs at the very start of `hay`. -/
def startsWithChars : List Char → List Char → Bool
  | _, [] => true
  | [], _ :: _ => false
  | a :: as, b :: bs => a == b && startsWithChars as bs

/-- Embedding of JavaScript `String.prototype.includes`: whether `pat`
occurs contiguously anywhere in `hay`. -/
def includesChars : List Char → List Char → Bool
  | [], pat => pat.isEmpty
  | a :: as, pat => startsWithChars (a :: as) pat || includesChars as pat

/-- Embedding of the time-window test of `events.filter` (SportsScreen.js
lines 49-54, MusicScreen.js lines 51-56).  `timeMatch` starts out `false`
and each branch compares the parsed event date with the window bounds; an
absent/unparseable date is `NaN` in the source, all of whose comparisons
are false, so `none` yields `false` in every branch. -/
def timeMatchJS (timeFilter : String) (eventDate : Option Int)
    (sod eod eow eom eonm : Int) : Bool :=
  match eventDate with
  | none => false
  | some dte =>
    if timeFilter = "Today" then decide (dte ≥ sod) && decide (dte ≤ eod)
    else if timeFilter = "This Week" then decide (dte ≥ sod) && decide (dte ≤ eow)
    else if timeFilter = "This Month" then decide (dte ≥ sod) && decide (dte ≤ eom)
    else if timeFilter = "Next Month" then decide (dte > eom) && decide (dte ≤ eonm)
    else false

/-- Embedding of the category test of the sports module (SportsScreen.js
lines 56-61): catch-all sentinel `"Sports"`, otherwise a case-sensitive
substring test guarded by the truthiness of `event.subcategory` (absent or
empty subcategory is falsy). -/
def sportsCategoryMatch (categoryFilter : String) (sub : Option String) : Bool :=
  if categoryFilter = "Sports" then true
  else if ["NFL", "NBA", "MLB", "NHL"].contains categoryFilter then
    match sub with
    | none => false
    | some s => if s = "" then false else includesChars s.data categoryFilter.data
  else false

/-- Embedding of the category test of the music module (MusicScreen.js
lines 58-63): catch-all sentinel `"Music"`, otherwise a case-insensitive
substring test guarded by the truthiness of `event.subcategory`. -/
def musicCategoryMatch (genreFilter : String) (sub : Option String) : Bool :=
  if genreFilter = "Music" then true
  else
    match sub with
    | none => false
    | some s =>
      if s = "" then false
      else includesChars (lowerStr s).data (lowerStr genreFilter).data

/-- Embedding of `filteredEvents` of the sports module (SportsScreen.js
lines 40-65), with the wall clock `now` passed explicitly. -/
def SportsScreen.filteredEvents (events : List Event)
    (timeFilter categoryFilter : String) (t : Now) : List Event :=
  let sod := startOfDay t
  let eod := endOfDay t
  let eow := endOfWeek t
  let eom := endOfMonth t
  let eonm := endOfNextMonth t
  events.filter fun e =>
    timeMatchJS timeFilter e.date sod eod eow eom eonm &&
      sportsCategoryMatch categoryFilter e.subcategory

/-- Embedding of `filteredEvents` of the music module (MusicScreen.js
lines 42-67), with the wall clock `now` passed explicitly. -/
def MusicScreen.filteredEvents (events : List Event)
    (timeFilter genreFilter : String) (t : Now) : List Event :=
  let sod := startOfDay t
  let eod := endOfDay t
  let eow := endOfWeek t
  let eom := endOfMonth t
  let eonm := endOfNextMonth t
  events.filter fun e =>
    timeMatchJS timeFilter e.date sod eod eow eom eonm &&
      musicCategoryMatch genreFilter e.subcategory

/-- Raw Ticketmaster event payload, reduced to the fields the normalizer in
App.js lines 39-48 reads.  Optional chains that can yield `undefined` are
`Option`s; `dateTime` already carries the parsed timestamp of the ISO
string (or `none` when the field is absent). -/
structure RawEvent where
  id : String
  name : String
  segmentName : Option String := none
  subGenreName : Option String := none
  dateTime : Option Int := none
  venueName : Option String := none
  image16x9Url : Option String := none
  addressLine1 : Option String := none
  cityName : Option String := none
  stateCode : Option String := none
deriving Repr, DecidableEq

/-- Embedding of the JavaScript `||` default: the left operand is kept
unless it is falsy (absent or the empty string). -/
def jsOrElse (o : Option String) (d : String) : String :=
  match o with
  | none => d
  | some s => if s = "" then d else s

/-- Embedding of string interpolation of a possibly-undefined value: the
template literal in App.js line 47 stringifies `undefined` literally. -/
def jsTemplateStr (o : Option String) : String :=
  match o with
  | none => "undefined"
  | some s => s

/-- Embedding of the payload-to-Event mapping in App.js lines 39-48. -/
def normalizeEvent (e : RawEvent) : Event :=
  { id := e.id
    name := e.name
    category := jsOrElse e.segmentName "Social"
    subcategory := some (jsOrElse e.subGenreName "N/A")
    date := e.dateTime
    venueName := e.venueName
    imageUrl := jsOrElse e.image16x9Url
      "https://placehold.co/600x400/1a202c/ffffff?text=Event"
    address := jsTemplateStr e.addressLine1 ++ ", " ++ jsTemplateStr e.cityName
      ++ ", " ++ jsTemplateStr e.stateCode }

/-- Timestamp of `tomorrow` in the mock data (App.js line 115):
`setDate(getDate() + 1)` on a copy of `now`. -/
def mockTomorrow (t : Now) : Int :=
  mkMillis t.year (t.month - 1) ((t.day : Int) + 1) (todMillis t)

/-- Timestamp of `nextWeek` in the mock data (App.js line 116):
`setDate(getDate() + 7)` on a copy of `now`. -/
def mockNextWeek (t : Now) : Int :=
  mkMillis t.year (t.month - 1) ((t.day : Int) + 7) (todMillis t)

/-- Timestamp of `nextMonth` in the mock data (App.js line 117):
`setMonth(getMonth() + 1)` on a copy of `now`, keeping day and time of
day (JavaScript normalizes a day index past the end of the shorter
month). -/
def mockNextMonth (t : Now) : Int :=
  mkMillis t.year t.month t.day (todMillis t)

/-- Embedding of `mockApi.fetchTicketmasterEvents` (App.js lines 111-126):
the five literal sample events, with dates derived from `now`. -/
def mockApi.fetchTicketmasterEvents (t : Now) : List Event :=
  [ { id := "tm-1", name := "Mock: Indie Showcase", category := "Music",
      date := some t.millis, venueName := some "The Mockingbird Theater",
      imageUrl := "https://placehold.co/600x400/1a202c/ffffff?text=Mock+Music",
      address := "123 Mock St, Denver, CO" },
    { id := "tm-2", name := "Mock: Broncos Game", category := "Sports",
      subcategory := some "NFL", date := some t.millis,
      venueName := some "Mock Field",
      imageUrl := "https://placehold.co/600x400/FB4F14/ffffff?text=Mock+Football",
      address := "456 Mock Ave, Denver, CO" },
    { id := "tm-3", name := "Mock: Jazz Night", category := "Music",
      date := some (mockTomorrow t), venueName := some "The Mock Note",
      imageUrl := "https://placehold.co/600x400/4a5568/ffffff?text=Mock+Jazz",
      address := "789 Mock Blvd, Denver, CO" },
    { id := "tm-4", name := "Mock: Nuggets Game", category := "Sports",
      subcategory := some "NBA", date := some (mockNextWeek t),
      venueName := some "Mock Arena",
      imageUrl := "https://placehold.co/600x400/0E2240/ffffff?text=Mock+Basketball",
      address := "111 Mock Ct, Denver, CO" },
    { id := "tm-5", name := "Mock: Art Festival", category := "Social",
      date := some (mockNextMonth t), venueName := some "Mock Museum",
      imageUrl := "https://placehold.co/600x400/718096/ffffff?text=Mock+Art",
      address := "222 Mock Ln, Denver, CO" } ]

/-- Outcome of the Ticketmaster HTTP round trip, as `api.fetchTicketmasterEvents`
distinguishes it: the `fetch`/`json` steps threw (caught in App.js line 49),
or they produced a body whose `_embedded.events` list is absent or present. -/
inductive FetchResponse where
  | transportFailure : FetchResponse
  | payload (embeddedEvents : Option (List RawEvent)) : FetchResponse
deriving Repr, DecidableEq

/-- Embedding of `api.fetchTicketmasterEvents` (App.js lines 23-53) after
the transport: a thrown error, an absent `_embedded`/`events` field, or an
empty events list all fall back to the mock list; otherwise each raw event
is normalized. -/
def api.fetchTicketmasterEvents (resp : FetchResponse) (t : Now) : List Event :=
  match resp with
  | .transportFailure => mockApi.fetchTicketmasterEvents t
  | .payload none => mockApi.fetchTicketmasterEvents t
  | .payload (some l) =>
    if l.length = 0 then mockApi.fetchTicketmasterEvents t
    else l.map normalizeEvent

/-- The App-level state the Find-My-Night flow touches (App.js lines
379-404): the selected event (details view when `some`), the modal
visibility flag, and the suggested event. -/
structure AppState where
  selectedEvent : Option Event := none
  findMyNightVisible : Bool := false
  suggestedEvent : Option Event := none
deriving Repr, DecidableEq

/-- Embedding of `handleAcceptSuggestion` (App.js lines 398-404): close
the modal and select the suggested event (shown in the details view). -/
def App.handleAcceptSuggestion (s : AppState) : AppState :=
  { s with findMyNightVisible := false, selectedEvent := s.suggestedEvent }

/-- Embedding of the `onRetry` handler wired to the modal's Try Again
button (App.js line 433): it only sets `findMyNightVisible` to `false`. -/
def App.retryHandler (s : AppState) : AppState :=
  { s with findMyNightVisible := false }

/-- Embedding of the render guard of `FindMyNightModal` (App.js line 341):
the modal renders nothing unless it is visible and an event is present. -/
def FindMyNightModal.renders (visible : Bool) (ev : Option Event) : Bool :=
  visible && ev.isSome

/-- Modelled from the spec: the `onFindMyNight` pick operation
(NightPicker, spec §4.3) is not implemented in the sources — App.js only
passes `onFindMyNight` into the unused `DiscoverScreen` (line 279) without
ever defining it.  Per the spec it selects one element uniformly at random
from `candidates` and returns none on an empty list.  Randomness is
modelled by the draw `r`, reduced modulo the list length, so that a
uniformly distributed `r` selects each element with equal probability. -/
def NightPicker.pick (candidates : List Event) (r : Nat) : Option Event :=
  if h : candidates.length = 0 then none
  else some (candidates.get ⟨r % candidates.length, Nat.mod_lt r (Nat.pos_of_ne_zero h)⟩)

/-- Modelled from the spec: the caller of NightPicker (spec §4.3) must not
open the suggestion modal when the candidate list is empty; on a
successful pick it stores the suggestion and opens the modal. -/
def handleFindMyNight (s : AppState) (candidates : List Event) (r : Nat) : AppState :=
  match NightPicker.pick candidates r with
  | none => s
  | some e => { s with suggestedEvent := some e, findMyNightVisible := true }

/-! ### Calendar lemmas -/

set_option maxHeartbeats 1600000 in
theorem daysBeforeYear_succ (y : Nat) :
    daysBeforeYear (y + 1) = daysBeforeYear y + daysInYear y := by
  have hy : daysInYear y =
      if y % 4 = 0 ∧ (¬ y % 100 = 0 ∨ y % 400 = 0) then 366 else 365 := by
    unfold daysInYear isLeap
    split <;> split <;> simp_all
  rw [hy]
  unfold daysBeforeYear
  split
  · omega
  · rename_i h
    rcases Decidable.not_and_iff_or_not.mp h with h4 | h'
    · omega
    · rw [not_or, not_not] at h'
      have h100 : y % 100 = 0 ∧ ¬ y % 400 = 0 := h'
      omega

theorem daysBeforeMonth_year (y : Nat) : daysBeforeMonth y 13 = daysInYear y := by
  cases h : isLeap y <;> simp [daysBeforeMonth, daysInMonth, daysInYear, h]

theorem daysInMonth_bounds (y m : Nat) (h1 : 1 ≤ m) (h2 : m ≤ 12) :
    28 ≤ daysInMonth y m ∧ daysInMonth y m ≤ 31 := by
  interval_cases m <;> first
    | (simp [daysInMonth]; done)
    | (simp [daysInMonth]; cases isLeap y <;> simp)

theorem mkMillis_of_lt (y : Nat) {mIdx : Nat} (d ms : Int) (h : mIdx < 12) :
    mkMillis y mIdx d ms = dayNumber y (mIdx + 1) d * msPerDay + ms := by
  unfold mkMillis
  rw [Nat.div_eq_of_lt h, Nat.mod_eq_of_lt h, Nat.add_zero]

/-- Day number of the last day of month `m` of year `y`. -/
def monthEndDN (y m : Nat) : Int :=
  ((daysBeforeYear y + daysBeforeMonth y m + daysInMonth y m : Nat) : Int) - 1

theorem mkMillis_day_zero (y : Nat) {m : Nat} (ms : Int) (h1 : 1 ≤ m) (h2 : m ≤ 12) :
    mkMillis y m 0 ms = monthEndDN y m * msPerDay + ms := by
  rcases Nat.lt_or_ge m 12 with hm | hm
  · rw [mkMillis_of_lt y 0 ms hm]
    unfold dayNumber monthEndDN
    obtain ⟨m', rfl⟩ : ∃ m', m = m' + 1 := ⟨m - 1, by omega⟩
    simp only [daysBeforeMonth]
    push_cast
    ring
  · have h12 : m = 12 := by omega
    subst h12
    have key : dayNumber (y + 1) 1 0 = monthEndDN y 12 := by
      unfold dayNumber monthEndDN
      have hb : daysBeforeMonth (y + 1) 1 = 0 := by
        simp [daysBeforeMonth, daysInMonth]
      have hy : daysBeforeYear (y + 1) =
          daysBeforeYear y + daysBeforeMonth y 12 + daysInMonth y 12 := by
        rw [daysBeforeYear_succ, ← daysBeforeMonth_year y,
          show daysBeforeMonth y 13 = daysBeforeMonth y 12 + daysInMonth y 12 from rfl]
        omega
      rw [hb, hy]
      push_cast
      ring
    show dayNumber (y + 12 / 12) (12 % 12 + 1) 0 * msPerDay + ms = _
    rw [show (12 : Nat) / 12 = 1 from rfl, show (12 : Nat) % 12 + 1 = 1 from rfl, key]

theorem daysBeforeYear_split (y : Nat) :
    daysBeforeYear (y + 1) = daysBeforeYear y + daysBeforeMonth y 12 + daysInMonth y 12 := by
  rw [daysBeforeYear_succ, ← daysBeforeMonth_year y,
    show daysBeforeMonth y 13 = daysBeforeMonth y 12 + daysInMonth y 12 from rfl]
  omega

theorem mkMillis_day_zero_next (y : Nat) {m : Nat} (ms : Int) (h1 : 1 ≤ m) (h2 : m ≤ 12) :
    mkMillis y (m + 1) 0 ms =
      (if m = 12 then monthEndDN (y + 1) 1 else monthEndDN y (m + 1)) * msPerDay + ms := by
  rcases Nat.lt_or_ge m 12 with hm | hm
  · rw [if_neg (by omega)]
    exact mkMillis_day_zero y ms (by omega) (by omega)
  · have h12 : m = 12 := by omega
    subst h12
    rw [if_pos rfl]
    show dayNumber (y + 13 / 12) (13 % 12 + 1) 0 * msPerDay + ms = _
    rw [show (13 : Nat) / 12 = 1 from rfl, show (13 : Nat) % 12 + 1 = 2 from rfl]
    have key : dayNumber (y + 1) 2 0 = monthEndDN (y + 1) 1 := by
      unfold dayNumber monthEndDN
      rw [show daysBeforeMonth (y + 1) 2 =
        daysBeforeMonth (y + 1) 1 + daysInMonth (y + 1) 1 from rfl]
      push_cast
      ring
    rw [key]

theorem monthEndDN_lt_next (y : Nat) {m : Nat} (h1 : 1 ≤ m) (h2 : m ≤ 12) :
    monthEndDN y m < (if m = 12 then monthEndDN (y + 1) 1 else monthEndDN y (m + 1)) := by
  rcases Nat.lt_or_ge m 12 with hm | hm
  · rw [if_neg (by omega)]
    unfold monthEndDN
    rw [show daysBeforeMonth y (m + 1) = daysBeforeMonth y m + daysInMonth y m from rfl]
    have hb := daysInMonth_bounds y (m + 1) (by omega) (by omega)
    omega
  · have h12 : m = 12 := by omega
    subst h12
    rw [if_pos rfl]
    unfold monthEndDN
    have hb : daysBeforeMonth (y + 1) 1 = 0 := by
      simp [daysBeforeMonth, daysInMonth]
    have hj : daysInMonth (y + 1) 1 = 31 := rfl
    rw [hb, hj, daysBeforeYear_split y]
    omega

/-! ### Boundary-instant lemmas for a valid instant -/

theorem startOfDay_eq (t : Now) (h : t.Valid) :
    startOfDay t = dayNumber t.year t.month t.day * msPerDay := by
  obtain ⟨h1, h2, -⟩ := h
  unfold startOfDay
  rw [mkMillis_of_lt t.year _ _ (show t.month - 1 < 12 by omega),
    show t.month - 1 + 1 = t.month from by omega, add_zero]

theorem endOfDay_eq (t : Now) (h : t.Valid) :
    endOfDay t = dayNumber t.year t.month t.day * msPerDay + 86399999 := by
  obtain ⟨h1, h2, -⟩ := h
  unfold endOfDay
  rw [mkMillis_of_lt t.year _ _ (show t.month - 1 < 12 by omega),
    show t.month - 1 + 1 = t.month from by omega]

theorem millis_eq (t : Now) (h : t.Valid) :
    t.millis = dayNumber t.year t.month t.day * msPerDay + todMillis t := by
  obtain ⟨h1, h2, -⟩ := h
  unfold Now.millis
  rw [mkMillis_of_lt t.year _ _ (show t.month - 1 < 12 by omega),
    show t.month - 1 + 1 = t.month from by omega]

theorem endOfWeek_eq (t : Now) (h : t.Valid) :
    endOfWeek t =
      dayNumber t.year t.month ((t.day : Int) - jsGetDay (startOfDay t) + 7) * msPerDay := by
  obtain ⟨h1, h2, -⟩ := h
  unfold endOfWeek
  rw [mkMillis_of_lt t.year _ _ (show t.month - 1 < 12 by omega),
    show t.month - 1 + 1 = t.month from by omega, add_zero]

theorem endOfMonth_eq (t : Now) (h : t.Valid) :
    endOfMonth t = monthEndDN t.year t.month * msPerDay + 86399999 := by
  obtain ⟨h1, h2, -⟩ := h
  unfold endOfMonth
  exact mkMillis_day_zero t.year _ h1 h2

theorem dayNumber_shift (y m : Nat) (d d' : Int) :
    dayNumber y m d' = dayNumber y m d + (d' - d) := by
  unfold dayNumber
  ring

theorem jsGetDay_mul (D : Int) : jsGetDay (D * msPerDay) = (D + 6) % 7 := by
  unfold jsGetDay
  rw [Int.mul_fdiv_cancel _ (show msPerDay ≠ 0 by decide)]

theorem jsGetDay_range (t : Int) : 0 ≤ jsGetDay t ∧ jsGetDay t < 7 :=
  ⟨Int.emod_nonneg _ (by decide), Int.emod_lt_of_pos _ (by decide)⟩

theorem todMillis_range (t : Now) (h : t.Valid) :
    0 ≤ todMillis t ∧ todMillis t ≤ 86399999 := by
  obtain ⟨-, -, -, -, h5, h6, h7, h8⟩ := h
  unfold todMillis
  omega

theorem startOfDay_le_millis (t : Now) (h : t.Valid) : startOfDay t ≤ t.millis := by
  rw [startOfDay_eq t h, millis_eq t h]
  have := (todMillis_range t h).1
  omega

theorem millis_le_endOfDay (t : Now) (h : t.Valid) : t.millis ≤ endOfDay t := by
  rw [millis_eq t h, endOfDay_eq t h]
  have := (todMillis_range t h).2
  omega

theorem startOfDay_le_endOfDay (t : Now) (h : t.Valid) : startOfDay t ≤ endOfDay t := by
  rw [startOfDay_eq t h, endOfDay_eq t h]
  omega

theorem endOfDay_lt_endOfWeek (t : Now) (h : t.Valid) : endOfDay t < endOfWeek t := by
  rw [endOfDay_eq t h, endOfWeek_eq t h,
    dayNumber_shift t.year t.month (t.day : Int) ((t.day : Int) - jsGetDay (startOfDay t) + 7)]
  have hr := jsGetDay_range (startOfDay t)
  have hone : (1 : Int) ≤ (t.day : Int) - jsGetDay (startOfDay t) + 7 - (t.day : Int) := by
    omega
  have := mul_le_mul_of_nonneg_right hone (show (0 : Int) ≤ msPerDay by decide)
  rw [msPerDay] at this ⊢
  omega

theorem endOfDay_le_endOfMonth (t : Now) (h : t.Valid) : endOfDay t ≤ endOfMonth t := by
  rw [endOfDay_eq t h, endOfMonth_eq t h]
  obtain ⟨h1, h2, h3, h4, -⟩ := h
  have hD : dayNumber t.year t.month t.day ≤ monthEndDN t.year t.month := by
    unfold dayNumber monthEndDN
    omega
  have := mul_le_mul_of_nonneg_right hD (show (0 : Int) ≤ msPerDay by decide)
  omega

theorem endOfDay_lt_endOfMonth (t : Now) (h : t.Valid)
    (hd : t.day ≠ daysInMonth t.year t.month) : endOfDay t < endOfMonth t := by
  rw [endOfDay_eq t h, endOfMonth_eq t h]
  obtain ⟨h1, h2, h3, h4, -⟩ := h
  have hD : dayNumber t.year t.month t.day + 1 ≤ monthEndDN t.year t.month := by
    unfold dayNumber monthEndDN
    omega
  have := mul_le_mul_of_nonneg_right hD (show (0 : Int) ≤ msPerDay by decide)
  rw [msPerDay] at this ⊢
  omega

theorem endOfMonth_lt_endOfNextMonth (t : Now) (h : t.Valid) :
    endOfMonth t < endOfNextMonth t := by
  obtain ⟨h1, h2, -⟩ := h
  unfold endOfMonth endOfNextMonth
  rw [mkMillis_day_zero t.year _ h1 h2, mkMillis_day_zero_next t.year _ h1 h2]
  have hlt := monthEndDN_lt_next t.year h1 h2
  have : monthEndDN t.year t.month + 1 ≤
      (if t.month = 12 then monthEndDN (t.year + 1) 1 else monthEndDN t.year (t.month + 1)) := by
    omega
  have := mul_le_mul_of_nonneg_right this (show (0 : Int) ≤ msPerDay by decide)
  rw [msPerDay] at this ⊢
  omega

/-! ### Claim theorems -/

/-- C5: for every valid reference instant, the five boundary instants
satisfy `startOfDay ≤ now ≤ endOfDay`, `startOfDay ≤ endOfDay < endOfWeek`,
`endOfDay ≤ endOfMonth`, `endOfMonth < endOfNextMonth`, and
`endOfDay < endOfMonth` unless `now` is the last day of its month. -/
theorem claim5_boundary_invariants (t : Now) (h : t.Valid) :
    startOfDay t ≤ t.millis ∧ t.millis ≤ endOfDay t ∧
    startOfDay t ≤ endOfDay t ∧ endOfDay t < endOfWeek t ∧
    endOfDay t ≤ endOfMonth t ∧ endOfMonth t < endOfNextMonth t ∧
    (t.day ≠ daysInMonth t.year t.month → endOfDay t < endOfMonth t) :=
  ⟨startOfDay_le_millis t h, millis_le_endOfDay t h, startOfDay_le_endOfDay t h,
   endOfDay_lt_endOfWeek t h, endOfDay_le_endOfMonth t h,
   endOfMonth_lt_endOfNextMonth t h, endOfDay_lt_endOfMonth t h⟩

/-- C5 witness: the invariants evaluated at 2025-06-15T12:00:00, which is
not the last day of its month. -/
theorem claim5_boundary_invariants_witness :
    endOfDay (Now.mk 2025 6 15 12 0 0 0) < endOfMonth (Now.mk 2025 6 15 12 0 0 0) :=
  (claim5_boundary_invariants (Now.mk 2025 6 15 12 0 0 0)
    (by decide)).2.2.2.2.2.2 (by decide)

/-- C3: for every valid reference instant, `endOfWeek` is `startOfDay`
advanced by `7 - dayOfWeek(startOfDay)` days (day of week 0 = Sunday ..
6 = Saturday) at time 00:00:00.000, so on a Sunday it jumps a full 7 days
to the following Sunday's midnight. -/
theorem claim3_endOfWeek (t : Now) (h : t.Valid) :
    endOfWeek t = startOfDay t + (7 - jsGetDay (startOfDay t)) * msPerDay ∧
    0 ≤ jsGetDay (startOfDay t) ∧ jsGetDay (startOfDay t) ≤ 6 ∧
    (jsGetDay (startOfDay t) = 0 → endOfWeek t = startOfDay t + 7 * msPerDay) := by
  have he : endOfWeek t = startOfDay t + (7 - jsGetDay (startOfDay t)) * msPerDay := by
    rw [endOfWeek_eq t h,
      dayNumber_shift t.year t.month (t.day : Int)
        ((t.day : Int) - jsGetDay (startOfDay t) + 7),
      startOfDay_eq t h]
    ring
  have hr := jsGetDay_range (startOfDay t)
  refine ⟨he, hr.1, by omega, fun h0 => ?_⟩
  rw [he, h0]
  ring

/-- C3 witness: 2025-06-15 is a Sunday, and its `endOfWeek` is a full
7 days after its `startOfDay`. -/
theorem claim3_endOfWeek_witness :
    endOfWeek (Now.mk 2025 6 15 12 0 0 0) =
      startOfDay (Now.mk 2025 6 15 12 0 0 0) + 7 * msPerDay :=
  (claim3_endOfWeek (Now.mk 2025 6 15 12 0 0 0) (by decide)).2.2.2 (by decide)

/-- C1: for every event with a valid (parsed) date, the time predicate
follows the §4.2 boundary table exactly for each of the four time filters;
an event dated exactly at `endOfMonth` matches This Month but not
Next Month; and with now = 2025-06-15T12:00:00 an event dated
2025-06-15T20:00:00 is included under Today and excluded under
Next Month. -/
theorem claim1_time_windows (t : Now) (h : t.Valid) (d : Int) :
    (timeMatchJS "Today" (some d) (startOfDay t) (endOfDay t) (endOfWeek t)
        (endOfMonth t) (endOfNextMonth t) = true ↔
      startOfDay t ≤ d ∧ d ≤ endOfDay t) ∧
    (timeMatchJS "This Week" (some d) (startOfDay t) (endOfDay t) (endOfWeek t)
        (endOfMonth t) (endOfNextMonth t) = true ↔
      startOfDay t ≤ d ∧ d ≤ endOfWeek t) ∧
    (timeMatchJS "This Month" (some d) (startOfDay t) (endOfDay t) (endOfWeek t)
        (endOfMonth t) (endOfNextMonth t) = true ↔
      startOfDay t ≤ d ∧ d ≤ endOfMonth t) ∧
    (timeMatchJS "Next Month" (some d) (startOfDay t) (endOfDay t) (endOfWeek t)
        (endOfMonth t) (endOfNextMonth t) = true ↔
      endOfMonth t < d ∧ d ≤ endOfNextMonth t) ∧
    timeMatchJS "This Month" (some (endOfMonth t)) (startOfDay t) (endOfDay t)
      (endOfWeek t) (endOfMonth t) (endOfNextMonth t) = true ∧
    timeMatchJS "Next Month" (some (endOfMonth t)) (startOfDay t) (endOfDay t)
      (endOfWeek t) (endOfMonth t) (endOfNextMonth t) = false ∧
    timeMatchJS "Today" (some (mkMillis 2025 5 15 72000000))
      (startOfDay (Now.mk 2025 6 15 12 0 0 0)) (endOfDay (Now.mk 2025 6 15 12 0 0 0))
      (endOfWeek (Now.mk 2025 6 15 12 0 0 0)) (endOfMonth (Now.mk 2025 6 15 12 0 0 0))
      (endOfNextMonth (Now.mk 2025 6 15 12 0 0 0)) = true ∧
    timeMatchJS "Next Month" (some (mkMillis 2025 5 15 72000000))
      (startOfDay (Now.mk 2025 6 15 12 0 0 0)) (endOfDay (Now.mk 2025 6 15 12 0 0 0))
      (endOfWeek (Now.mk 2025 6 15 12 0 0 0)) (endOfMonth (Now.mk 2025 6 15 12 0 0 0))
      (endOfNextMonth (Now.mk 2025 6 15 12 0 0 0)) = false := by
  have hsod_eom : startOfDay t ≤ endOfMonth t :=
    le_trans (startOfDay_le_endOfDay t h) (endOfDay_le_endOfMonth t h)
  refine ⟨by simp [timeMatchJS], by simp [timeMatchJS], by simp [timeMatchJS],
    by simp [timeMatchJS], ?_, by simp [timeMatchJS], by decide, by decide⟩
  simp [timeMatchJS]
  omega

/-- C1 witness: the boundary table instantiated at now = 2025-06-15T12:00:00
for an event dated 2025-06-15T20:00:00. -/
theorem claim1_time_windows_witness :
    timeMatchJS "Today" (some (mkMillis 2025 5 15 72000000))
      (startOfDay (Now.mk 2025 6 15 12 0 0 0)) (endOfDay (Now.mk 2025 6 15 12 0 0 0))
      (endOfWeek (Now.mk 2025 6 15 12 0 0 0)) (endOfMonth (Now.mk 2025 6 15 12 0 0 0))
      (endOfNextMonth (Now.mk 2025 6 15 12 0 0 0)) = true :=
  (claim1_time_windows (Now.mk 2025 6 15 12 0 0 0) (by decide) 0).2.2.2.2.2.2.1

/-- C4: an event whose date is absent or unparseable never matches any of
the four time filters, is excluded from every time-filtered result of both
modules, and the filter is a total function on such events (no error is
raised). -/
theorem claim4_invalid_date_excluded (tf : String) (sod eod eow eom eonm : Int)
    (events : List Event) (catF : String) (t : Now) (e : Event)
    (hdate : e.date = none) :
    timeMatchJS tf none sod eod eow eom eonm = false ∧
    e ∉ SportsScreen.filteredEvents events tf catF t ∧
    e ∉ MusicScreen.filteredEvents events tf catF t := by
  refine ⟨rfl, ?_, ?_⟩
  · intro hm
    have := (List.mem_filter.mp hm).2
    rw [hdate] at this
    simp [timeMatchJS] at this
  · intro hm
    have := (List.mem_filter.mp hm).2
    rw [hdate] at this
    simp [timeMatchJS] at this

/-- C4 witness: a concrete dateless event is excluded under the Today
filter of the sports module at 2025-06-15T12:00:00. -/
theorem claim4_invalid_date_excluded_witness :
    (Event.mk "x1" "No Date Gig" "Music" none none none "" "") ∉
      SportsScreen.filteredEvents
        [Event.mk "x1" "No Date Gig" "Music" none none none "" ""]
        "Today" "Sports" (Now.mk 2025 6 15 12 0 0 0) :=
  (claim4_invalid_date_excluded "Today" 0 0 0 0 0
    [Event.mk "x1" "No Date Gig" "Music" none none none "" ""]
    "Sports" (Now.mk 2025 6 15 12 0 0 0)
    (Event.mk "x1" "No Date Gig" "Music" none none none "" "") rfl).2.1

/-- C6: with the module's catch-all sentinel as category filter
("Sports" in the sports module, "Music" in the music module), the result
is exactly the in-order subsequence of events satisfying the time
predicate alone. -/
theorem claim6_catch_all_sentinel (events : List Event) (tf : String) (t : Now) :
    SportsScreen.filteredEvents events tf "Sports" t =
      events.filter (fun e => timeMatchJS tf e.date (startOfDay t) (endOfDay t)
        (endOfWeek t) (endOfMonth t) (endOfNextMonth t)) ∧
    MusicScreen.filteredEvents events tf "Music" t =
      events.filter (fun e => timeMatchJS tf e.date (startOfDay t) (endOfDay t)
        (endOfWeek t) (endOfMonth t) (endOfNextMonth t)) ∧
    List.Sublist (SportsScreen.filteredEvents events tf "Sports" t) events ∧
    List.Sublist (MusicScreen.filteredEvents events tf "Music" t) events := by
  refine ⟨?_, ?_, List.filter_sublist _, List.filter_sublist _⟩
  · unfold SportsScreen.filteredEvents
    simp [sportsCategoryMatch]
  · unfold MusicScreen.filteredEvents
    simp [musicCategoryMatch]

theorem lowerStr_data_ne_nil {f : String} (hf : f ≠ "") : (lowerStr f).data ≠ [] := by
  unfold lowerStr
  intro h
  rw [List.map_eq_nil_iff] at h
  exact hf (String.ext h)

/-- C2: away from the catch-all sentinel, the category predicate holds iff
the subcategory is present and contains the filter as a substring —
case-sensitively in the sports module for the four league filters,
case-insensitively (case-folded) in the music module for any non-sentinel,
non-empty genre filter; concretely, subcategory "NFL - Preseason" matches
filter "NFL" and an absent subcategory never matches it. -/
theorem claim2_category_predicate :
    (∀ (f : String) (sub : Option String), f ∈ ["NFL", "NBA", "MLB", "NHL"] →
      (sportsCategoryMatch f sub = true ↔
        ∃ s, sub = some s ∧ includesChars s.data f.data = true)) ∧
    (∀ (f : String) (sub : Option String), f ≠ "Music" → f ≠ "" →
      (musicCategoryMatch f sub = true ↔
        ∃ s, sub = some s ∧
          includesChars (lowerStr s).data (lowerStr f).data = true)) ∧
    sportsCategoryMatch "NFL" (some "NFL - Preseason") = true ∧
    sportsCategoryMatch "NFL" none = false := by
  refine ⟨?_, ?_, by decide, by decide⟩
  · intro f sub hf
    fin_cases hf <;>
      cases sub with
      | none => simp [sportsCategoryMatch]
      | some s =>
        by_cases hs : s = ""
        · subst hs
          simp [sportsCategoryMatch]
          decide
        · simp [sportsCategoryMatch, hs]
  · intro f sub hfm hfe
    cases sub with
    | none => simp [musicCategoryMatch, hfm]
    | some s =>
      by_cases hs : s = ""
      · subst hs
        have hne : (lowerStr f).data ≠ [] := lowerStr_data_ne_nil hfe
        simp [musicCategoryMatch, hfm]
        have h0 : (lowerStr "").data = ([] : List Char) := rfl
        rw [h0]
        cases h' : (lowerStr f).data with
        | nil => exact absurd h' hne
        | cons a as => rfl
      · simp [musicCategoryMatch, hfm, hs]

/-- C2 witness: concrete matches in both modules. -/
theorem claim2_category_predicate_witness :
    sportsCategoryMatch "NFL" (some "NFL - Preseason") = true ∧
    musicCategoryMatch "Rock" (some "Hard Rock") = true :=
  ⟨(claim2_category_predicate.1 "NFL" (some "NFL - Preseason") (by decide)).mpr
      ⟨"NFL - Preseason", rfl, by decide⟩,
   (claim2_category_predicate.2.1 "Rock" (some "Hard Rock") (by decide) (by decide)).mpr
      ⟨"Hard Rock", rfl, by decide⟩⟩

/-- C7: when the event fetch suffers a transport failure, gets a body
without an events list, or gets an empty events list, it returns the mock
list of exactly 5 events (categories spanning Music/Sports/Social, dates
today / today / tomorrow / next week / next month), none of which is empty
or null, instead of an error or an empty list.  The result is a function
of `now` alone, hence deterministic. -/
theorem claim7_mock_fallback (resp : FetchResponse) (t : Now)
    (h : resp = .transportFailure ∨ resp = .payload none ∨ resp = .payload (some [])) :
    api.fetchTicketmasterEvents resp t = mockApi.fetchTicketmasterEvents t ∧
    (api.fetchTicketmasterEvents resp t).length = 5 ∧
    api.fetchTicketmasterEvents resp t ≠ [] ∧
    (∀ e ∈ api.fetchTicketmasterEvents resp t,
      e.id ≠ "" ∧ e.name ≠ "" ∧ e.venueName ≠ none ∧ e.date.isSome = true) ∧
    (api.fetchTicketmasterEvents resp t).map Event.category =
      ["Music", "Sports", "Music", "Sports", "Social"] ∧
    (api.fetchTicketmasterEvents resp t).map Event.date =
      [some t.millis, some t.millis, some (mockTomorrow t), some (mockNextWeek t),
        some (mockNextMonth t)] ∧
    (t.Valid → mockTomorrow t = t.millis + msPerDay ∧
      mockNextWeek t = t.millis + 7 * msPerDay) := by
  have hm : api.fetchTicketmasterEvents resp t = mockApi.fetchTicketmasterEvents t := by
    rcases h with rfl | rfl | rfl <;> rfl
  rw [hm]
  refine ⟨rfl, rfl, by simp [mockApi.fetchTicketmasterEvents], ?_, rfl, rfl, ?_⟩
  · intro e he
    simp only [mockApi.fetchTicketmasterEvents, List.mem_cons, List.not_mem_nil,
      or_false] at he
    rcases he with rfl | rfl | rfl | rfl | rfl <;>
      exact ⟨by simp, by simp, by simp, rfl⟩
  · intro hv
    have h1 : 1 ≤ t.month := hv.1
    have h2 : t.month ≤ 12 := hv.2.1
    constructor
    · unfold mockTomorrow
      rw [millis_eq t hv, mkMillis_of_lt t.year _ _ (show t.month - 1 < 12 by omega),
        show t.month - 1 + 1 = t.month from by omega,
        dayNumber_shift t.year t.month (t.day : Int) ((t.day : Int) + 1)]
      ring
    · unfold mockNextWeek
      rw [millis_eq t hv, mkMillis_of_lt t.year _ _ (show t.month - 1 < 12 by omega),
        show t.month - 1 + 1 = t.month from by omega,
        dayNumber_shift t.year t.month (t.day : Int) ((t.day : Int) + 7)]
      ring

/-- C7 witness: the fallback evaluated at a transport failure on
2025-06-15T12:00:00. -/
theorem claim7_mock_fallback_witness :
    mockTomorrow (Now.mk 2025 6 15 12 0 0 0) =
      (Now.mk 2025 6 15 12 0 0 0).millis + msPerDay :=
  ((claim7_mock_fallback FetchResponse.transportFailure (Now.mk 2025 6 15 12 0 0 0)
    (Or.inl rfl)).2.2.2.2.2.2 (by decide)).1

/-- C8 (spec-modelled): pick on the empty list returns none and leaves the
app state unchanged, so the suggestion modal is not opened; pick on a
singleton always returns its element; pick on any non-empty list returns
an element of that list, and every position is selected by some draw —
the embedding of uniform selection. -/
theorem claim8_night_picker :
    (∀ r, NightPicker.pick [] r = none) ∧
    (∀ (e : Event) r, NightPicker.pick [e] r = some e) ∧
    (∀ (l : List Event) r, l ≠ [] → ∃ e, e ∈ l ∧ NightPicker.pick l r = some e) ∧
    (∀ (l : List Event) (i : Nat) (hi : i < l.length),
      NightPicker.pick l i = some (l.get ⟨i, hi⟩)) ∧
    (∀ (s : AppState) r, handleFindMyNight s [] r = s) ∧
    (∀ (s : AppState) r, s.findMyNightVisible = false →
      FindMyNightModal.renders (handleFindMyNight s [] r).findMyNightVisible
        (handleFindMyNight s [] r).suggestedEvent = false) := by
  have hpick : ∀ (l : List Event) (i : Nat) (hi : i < l.length),
      NightPicker.pick l i = some (l.get ⟨i, hi⟩) := by
    intro l i hi
    unfold NightPicker.pick
    rw [dif_neg (by omega)]
    congr 1
    exact congrArg l.get (Fin.ext (Nat.mod_eq_of_lt hi))
  have hempty : ∀ r, NightPicker.pick ([] : List Event) r = none := by
    intro r
    rfl
  have hstate : ∀ (s : AppState) r, handleFindMyNight s [] r = s := by
    intro s r
    unfold handleFindMyNight
    rw [hempty r]
  refine ⟨hempty, ?_, ?_, hpick, hstate, ?_⟩
  · intro e r
    unfold NightPicker.pick
    rw [dif_neg (by simp)]
    simp
  · intro l r hl
    refine ⟨l.get ⟨r % l.length, Nat.mod_lt r (List.length_pos.mpr hl)⟩,
      List.get_mem l (r % l.length) (Nat.mod_lt r (List.length_pos.mpr hl)), ?_⟩
    unfold NightPicker.pick
    rw [dif_neg (by simp [hl])]
  · intro s r hv
    rw [hstate s r]
    unfold FindMyNightModal.renders
    rw [hv]
    rfl

/-- C8 witness: concrete pick on an empty and a singleton list, and on a
concrete non-empty list. -/
theorem claim8_night_picker_witness :
    NightPicker.pick [] 3 = none ∧
    NightPicker.pick [Event.mk "e1" "Some Gig" "Music" none none none "" ""] 3 =
      some (Event.mk "e1" "Some Gig" "Music" none none none "" "") ∧
    (∃ e, e ∈ [Event.mk "e1" "Some Gig" "Music" none none none "" ""] ∧
      NightPicker.pick [Event.mk "e1" "Some Gig" "Music" none none none "" ""] 3 =
        some e) :=
  ⟨claim8_night_picker.1 3,
   claim8_night_picker.2.1 (Event.mk "e1" "Some Gig" "Music" none none none "" "") 3,
   claim8_night_picker.2.2.1 [Event.mk "e1" "Some Gig" "Music" none none none "" ""] 3
     (by decide)⟩

/-- A concrete suggestion used to evaluate the Find-My-Night handlers. -/
def sampleSuggestion : Event :=
  { id := "e1", name := "Sample Gig", category := "Music",
    date := some 0, venueName := some "Sample Hall" }

/-- An app state with the suggestion modal open on `sampleSuggestion`. -/
def modalOpenState : AppState :=
  { selectedEvent := none, findMyNightVisible := true,
    suggestedEvent := some sampleSuggestion }

/-- C9 (refutation of the retry half): evaluated at a state with the
suggestion modal open, the source's Try-Again handler merely sets the
visibility flag to false — the modal no longer renders, the stored
suggestion is untouched and no pick is re-invoked; its effect is exactly
that of the close (\"Maybe Later\") handler.  The accept half of the claim
does hold: accepting closes the modal and selects the suggested event for
the details view. -/
theorem claim9_retry_closes_modal :
    (App.retryHandler modalOpenState).findMyNightVisible = false ∧
    FindMyNightModal.renders (App.retryHandler modalOpenState).findMyNightVisible
      (App.retryHandler modalOpenState).suggestedEvent = false ∧
    (App.retryHandler modalOpenState).suggestedEvent = modalOpenState.suggestedEvent ∧
    App.retryHandler modalOpenState = { modalOpenState with findMyNightVisible := false } ∧
    (App.handleAcceptSuggestion modalOpenState).selectedEvent = some sampleSuggestion ∧
    (App.handleAcceptSuggestion modalOpenState).findMyNightVisible = false :=
  ⟨rfl, rfl, rfl, rfl, rfl, rfl⟩

/-- C10: every normalized event has a present, non-empty subcategory
(the literal "N/A" when the raw payload lacks a subGenre) and a category
defaulting to "Social"; consequently an event whose raw subcategory was
absent still matches, in the music module, every genre filter whose
case-folded text occurs in "n/a" — for example the filter "a". -/
theorem claim10_normalizer_defaults (raw : RawEvent) (f : String) :
    (normalizeEvent raw).subcategory.isSome = true ∧
    (∀ s, (normalizeEvent raw).subcategory = some s → s ≠ "") ∧
    (raw.subGenreName = none → (normalizeEvent raw).subcategory = some "N/A") ∧
    (raw.segmentName = none → (normalizeEvent raw).category = "Social") ∧
    (raw.subGenreName = none →
      includesChars (lowerStr "N/A").data (lowerStr f).data = true →
      musicCategoryMatch f (normalizeEvent raw).subcategory = true) ∧
    musicCategoryMatch "a" (some "N/A") = true := by
  have hne : ∀ (o : Option String) (d : String), d ≠ "" → jsOrElse o d ≠ "" := by
    intro o d hd
    cases o with
    | none => exact hd
    | some s =>
      show (if s = "" then d else s) ≠ ""
      by_cases hs : s = ""
      · rw [if_pos hs]
        exact hd
      · rw [if_neg hs]
        exact hs
  refine ⟨rfl, ?_, ?_, ?_, ?_, by decide⟩
  · intro s hs
    have h' : some (jsOrElse raw.subGenreName "N/A") = some s := hs
    rw [← Option.some_inj.mp h']
    exact hne _ _ (by decide)
  · intro hg
    show some (jsOrElse raw.subGenreName "N/A") = some "N/A"
    rw [hg]
    rfl
  · intro hseg
    show jsOrElse raw.segmentName "Social" = "Social"
    rw [hseg]
    rfl
  · intro hg hinc
    show musicCategoryMatch f (some (jsOrElse raw.subGenreName "N/A")) = true
    rw [hg]
    show musicCategoryMatch f (some "N/A") = true
    unfold musicCategoryMatch
    split
    · rfl
    · show (if ("N/A" : String) = "" then false
        else includesChars (lowerStr "N/A").data (lowerStr f).data) = true
      rw [if_neg (by decide)]
      exact hinc

/-- C10 witness: a raw payload without subGenre normalizes to subcategory
"N/A" and matches the genre filter "a" in the music module. -/
theorem claim10_normalizer_defaults_witness :
    musicCategoryMatch "a"
      (normalizeEvent (RawEvent.mk "r1" "Raw Gig" none none none none none
        none none none)).subcategory = true :=
  (claim10_normalizer_defaults
    (RawEvent.mk "r1" "Raw Gig" none none none none none none none none)
    "a").2.2.2.2.1 rfl (by decide)
